import Mathlib

set_option autoImplicit false
set_option synthInstance.maxSize 1024

/-!
Verification of the `pollen_api_dwd` DWD pollen-feed client
(`src/pollen_api_dwd/client.py`), as a shallow embedding in Lean 4.

The embedding models:
  * JSON values (`JVal`) as produced by `json.loads` (numbers restricted to
    integers, which is all the DWD feed uses);
  * Python dictionaries as insertion-ordered association lists (`dget`,
    `dinsert`), matching CPython semantics: assignment to an existing key
    keeps its position, assignment to a new key appends at the end, and
    lookup is by structural equality;
  * the mutable client object `PollenApiDwd` as a `State` record, with the
    parsing methods modelled as explicit state-passing functions that return
    the (possibly partially updated) state together with an optional raised
    exception, and the query methods as functions returning
    `Except PyErr _`;
  * Python exceptions as the inductive `PyErr`, with one constructor per
    distinct raise site / exception class reachable in the client.
-/

/-- A JSON value as produced by `json.loads`.  The DWD feed only contains
strings, integers, objects, arrays and null; floats are not modelled. -/
inductive JVal where
  | null
  | bool (b : Bool)
  | str (s : String)
  | num (n : Int)
  | obj (kvs : List (String × JVal))
  | arr (xs : List JVal)

mutual

/-- Structural (Python `==`) equality on JSON values, decidably. -/
def JVal.decEq : (a b : JVal) → Decidable (a = b)
  | .null, .null => isTrue rfl
  | .null, .bool _ => isFalse (fun h => nomatch h)
  | .null, .str _ => isFalse (fun h => nomatch h)
  | .null, .num _ => isFalse (fun h => nomatch h)
  | .null, .obj _ => isFalse (fun h => nomatch h)
  | .null, .arr _ => isFalse (fun h => nomatch h)
  | .bool _, .null => isFalse (fun h => nomatch h)
  | .bool a, .bool b =>
    match Bool.decEq a b with
    | isTrue h => isTrue (h ▸ rfl)
    | isFalse h => isFalse (fun hh => h (by injection hh))
  | .bool _, .str _ => isFalse (fun h => nomatch h)
  | .bool _, .num _ => isFalse (fun h => nomatch h)
  | .bool _, .obj _ => isFalse (fun h => nomatch h)
  | .bool _, .arr _ => isFalse (fun h => nomatch h)
  | .str _, .null => isFalse (fun h => nomatch h)
  | .str _, .bool _ => isFalse (fun h => nomatch h)
  | .str a, .str b =>
    match String.decEq a b with
    | isTrue h => isTrue (h ▸ rfl)
    | isFalse h => isFalse (fun hh => h (by injection hh))
  | .str _, .num _ => isFalse (fun h => nomatch h)
  | .str _, .obj _ => isFalse (fun h => nomatch h)
  | .str _, .arr _ => isFalse (fun h => nomatch h)
  | .num _, .null => isFalse (fun h => nomatch h)
  | .num _, .bool _ => isFalse (fun h => nomatch h)
  | .num _, .str _ => isFalse (fun h => nomatch h)
  | .num a, .num b =>
    match Int.instDecidableEq a b with
    | isTrue h => isTrue (h ▸ rfl)
    | isFalse h => isFalse (fun hh => h (by injection hh))
  | .num _, .obj _ => isFalse (fun h => nomatch h)
  | .num _, .arr _ => isFalse (fun h => nomatch h)
  | .obj _, .null => isFalse (fun h => nomatch h)
  | .obj _, .bool _ => isFalse (fun h => nomatch h)
  | .obj _, .str _ => isFalse (fun h => nomatch h)
  | .obj _, .num _ => isFalse (fun h => nomatch h)
  | .obj a, .obj b =>
    match JVal.decEqFields a b with
    | isTrue h => isTrue (h ▸ rfl)
    | isFalse h => isFalse (fun hh => h (by injection hh))
  | .obj _, .arr _ => isFalse (fun h => nomatch h)
  | .arr _, .null => isFalse (fun h => nomatch h)
  | .arr _, .bool _ => isFalse (fun h => nomatch h)
  | .arr _, .str _ => isFalse (fun h => nomatch h)
  | .arr _, .num _ => isFalse (fun h => nomatch h)
  | .arr _, .obj _ => isFalse (fun h => nomatch h)
  | .arr a, .arr b =>
    match JVal.decEqList a b with
    | isTrue h => isTrue (h ▸ rfl)
    | isFalse h => isFalse (fun hh => h (by injection hh))

/-- Decidable equality for object field lists. -/
def JVal.decEqFields : (a b : List (String × JVal)) → Decidable (a = b)
  | [], [] => isTrue rfl
  | [], _ :: _ => isFalse (fun h => nomatch h)
  | _ :: _, [] => isFalse (fun h => nomatch h)
  | (k1, v1) :: r1, (k2, v2) :: r2 =>
    match String.decEq k1 k2 with
    | isFalse h => isFalse (fun hh => by injection hh with h1 h2; exact h (by injection h1))
    | isTrue hk =>
      match JVal.decEq v1 v2 with
      | isFalse h => isFalse (fun hh => by injection hh with h1 h2; exact h (by injection h1))
      | isTrue hv =>
        match JVal.decEqFields r1 r2 with
        | isFalse h => isFalse (fun hh => by injection hh with h1 h2; exact h h2)
        | isTrue hr => isTrue (by rw [hk, hv, hr])

/-- Decidable equality for array element lists. -/
def JVal.decEqList : (a b : List JVal) → Decidable (a = b)
  | [], [] => isTrue rfl
  | [], _ :: _ => isFalse (fun h => nomatch h)
  | _ :: _, [] => isFalse (fun h => nomatch h)
  | v1 :: r1, v2 :: r2 =>
    match JVal.decEq v1 v2 with
    | isFalse h => isFalse (fun hh => by injection hh with h1 h2; exact h h1)
    | isTrue hv =>
      match JVal.decEqList r1 r2 with
      | isFalse h => isFalse (fun hh => by injection hh with h1 h2; exact h h2)
      | isTrue hr => isTrue (by rw [hv, hr])

end

instance : DecidableEq JVal := JVal.decEq

/-! ## Python dictionaries as insertion-ordered association lists -/

/-- Dictionary lookup `d.get(k)` / `d[k]`-hit: the value stored under the
first (and, for lists built by `dinsert`, only) occurrence of key `k`. -/
def dget {K V : Type} [DecidableEq K] (d : List (K × V)) (k : K) : Option V :=
  match d with
  | [] => none
  | (k1, v1) :: rest => if k1 = k then some v1 else dget rest k

/-- Dictionary assignment `d[k] = v`: CPython keeps the position of an
existing key and replaces its value; a new key is appended at the end. -/
def dinsert {K V : Type} [DecidableEq K] (d : List (K × V)) (k : K) (v : V) :
    List (K × V) :=
  match d with
  | [] => [(k, v)]
  | (k1, v1) :: rest => if k1 = k then (k, v) :: rest else (k1, v1) :: dinsert rest k v

/-- The keys of a dictionary, in insertion order (Python `d.keys()`). -/
def dkeys {K V : Type} (d : List (K × V)) : List K := d.map Prod.fst

theorem dget_dinsert_self {K V : Type} [DecidableEq K]
    (d : List (K × V)) (k : K) (v : V) : dget (dinsert d k v) k = some v := by
  induction d with
  | nil => simp [dget, dinsert]
  | cons hd tl ih =>
    obtain ⟨k1, v1⟩ := hd
    by_cases h : k1 = k
    · simp [dget, dinsert, h]
    · simp [dget, dinsert, h, ih]

theorem dget_dinsert_ne {K V : Type} [DecidableEq K]
    (d : List (K × V)) (k k2 : K) (v : V) (h : k2 ≠ k) :
    dget (dinsert d k v) k2 = dget d k2 := by
  induction d with
  | nil =>
    have hne : ¬ (k = k2) := fun hh => h hh.symm
    simp [dget, dinsert, hne]
  | cons hd tl ih =>
    obtain ⟨k1, v1⟩ := hd
    by_cases h1 : k1 = k
    · subst h1
      have hne : ¬ (k1 = k2) := fun hh => h hh.symm
      simp [dget, dinsert, hne]
    · by_cases h2 : k1 = k2 <;> simp [dget, dinsert, h1, h2, h, ih]

/-! ## Python string helpers, on the character lists underlying `String`

`String.startsWith`, `in`, `str.replace` and string comparison are modelled
directly on `String.data` so that they evaluate inside the kernel. -/

/-- Python `s.startswith(pat)`. -/
def strStarts (s pat : String) : Bool := pat.data.isPrefixOf s.data

/-- Does `l` contain `pat` as a contiguous sublist?  (Python `pat in s`.) -/
def charsContain (pat : List Char) : List Char → Bool
  | [] => pat.isEmpty
  | c :: cs => pat.isPrefixOf (c :: cs) || charsContain pat cs

/-- Python `pat in s` for strings. -/
def strContainsSub (s pat : String) : Bool := charsContain pat.data s.data

/-- Remove every (non-overlapping, left-to-right) occurrence of `['i', 'd']`:
Python `s.replace("id", "")` on character lists — `"id"` is the only
pattern the client ever erases (`key.replace("id", "")`, line 80). -/
def eraseAllId : List Char → List Char
  | [] => []
  | 'i' :: 'd' :: rest => eraseAllId rest
  | c :: rest => c :: eraseAllId rest

/-- Python `s.replace("id", "")`. -/
def strEraseId (s : String) : String := String.mk (eraseAllId s.data)

/-- Decimal digit accumulation for `pyIntOfString`. -/
def digitsToNatAux (acc : Nat) : List Char → Option Nat
  | [] => some acc
  | c :: cs => if c.isDigit then digitsToNatAux (acc * 10 + (c.toNat - 48)) cs else none

/-- Python `int(s)` (returning `none` where CPython raises `ValueError`).
Modelled for an optional leading minus sign followed by one or more decimal
digits; CPython additionally strips whitespace and accepts `+` and digit
group underscores, which never occur in the legend keys this is applied to. -/
def pyIntOfString (s : String) : Option Int :=
  match s.data with
  | [] => none
  | '-' :: rest =>
    match rest with
    | [] => none
    | _ => (digitsToNatAux 0 rest).map (fun n => -(n : Int))
  | l => (digitsToNatAux 0 l).map (fun n => (n : Int))

/-- Code-point comparison of character lists: Python `a <= b` on `str`. -/
def charListLe : List Char → List Char → Bool
  | [], _ => true
  | _ :: _, [] => false
  | a :: as, b :: bs =>
    if a.toNat < b.toNat then true
    else if b.toNat < a.toNat then false
    else charListLe as bs

/-- Python `a <= b` on strings (lexicographic by code point). -/
def strLe (a b : String) : Bool := charListLe a.data b.data

/-- `strLe` as a relation, for `List.insertionSort`. -/
def strLeP (a b : String) : Prop := strLe a b = true

instance : DecidableRel strLeP := fun a b => instDecidableEqBool (strLe a b) true

theorem charListLe_total (a b : List Char) : charListLe a b = true ∨ charListLe b a = true := by
  induction a generalizing b with
  | nil => left; simp [charListLe]
  | cons x xs ih =>
    cases b with
    | nil => right; simp [charListLe]
    | cons y ys =>
      rcases Nat.lt_trichotomy x.toNat y.toNat with h | h | h
      · left; simp [charListLe, h]
      · have h1 : ¬ x.toNat < y.toNat := by omega
        have h2 : ¬ y.toNat < x.toNat := by omega
        rcases ih ys with hh | hh
        · left; simp [charListLe, h1, h2, hh]
        · right; simp [charListLe, h1, h2, hh]
      · right; simp [charListLe, h]

theorem charListLe_trans (a b c : List Char) (hab : charListLe a b = true)
    (hbc : charListLe b c = true) : charListLe a c = true := by
  induction a generalizing b c with
  | nil => simp [charListLe]
  | cons x xs ih =>
    cases b with
    | nil => simp [charListLe] at hab
    | cons y ys =>
      cases c with
      | nil => simp [charListLe] at hbc
      | cons z zs =>
        simp only [charListLe] at hab hbc ⊢
        by_cases hxy1 : x.toNat < y.toNat
        · by_cases hyz1 : y.toNat < z.toNat
          · have hxz : x.toNat < z.toNat := by omega
            simp [hxz]
          · by_cases hyz2 : z.toNat < y.toNat
            · simp [hyz1, hyz2] at hbc
            · have hxz : x.toNat < z.toNat := by omega
              simp [hxz]
        · by_cases hxy2 : y.toNat < x.toNat
          · simp [hxy1, hxy2] at hab
          · by_cases hyz1 : y.toNat < z.toNat
            · have hxz : x.toNat < z.toNat := by omega
              simp [hxz]
            · by_cases hyz2 : z.toNat < y.toNat
              · simp [hyz1, hyz2] at hbc
              · have h3 : ¬ x.toNat < z.toNat := by omega
                have h4 : ¬ z.toNat < x.toNat := by omega
                simp [hxy1, hxy2] at hab
                simp [hyz1, hyz2] at hbc
                simp [h3, h4]
                exact ih ys zs hab hbc

instance : IsTotal String strLeP := ⟨fun a b => charListLe_total a.data b.data⟩

instance : IsTrans String strLeP := ⟨fun a b c => charListLe_trans a.data b.data c.data⟩

/-! ## Value types of the client -/

/-- A decoded legend entry (`client.py` lines 79-82): the dictionary
`{"severity": ..., "desc": ...}` stored under a severity-code key. -/
structure LegendEntry where
  severity : Int
  desc : Option JVal
deriving DecidableEq

/-- One element of `self._region_id2partregions[region_id]`
(`client.py` lines 66-69): the dictionary `{"id": ..., "name": ...}`. -/
structure PartEntry where
  id : Option JVal
  name : Option JVal
deriving DecidableEq

/-- The result of `datetime.datetime.strptime(_, "%Y-%m-%d %H:%M Uhr")`
(with the fixed Europe/Berlin zone attached, which never varies and is
therefore not carried). -/
structure Timestamp where
  year : Int
  month : Int
  day : Int
  hour : Int
  minute : Int
deriving DecidableEq

/-- Days from the civil epoch for a Gregorian date (Hinnant's algorithm,
floor-division form; Lean's `/` and `%` on `Int` are floor division and
modulus, matching Python's `//` and `%`).  `datetime.date` subtraction
returns exactly the difference of these counts, which is all the client
uses dates for. -/
def daysFromCivil (y m d : Int) : Int :=
  let yy := if m ≤ 2 then y - 1 else y
  let era := yy / 400
  let yoe := yy - era * 400
  let mp := (m + 9) % 12
  let doy := (153 * mp + 2) / 5 + d - 1
  let doe := yoe * 365 + yoe / 4 - yoe / 100 + doy
  era * 146097 + doe - 719468

/-- `self.last_update.date()` as a day count (only ever used in whole-day
differences). -/
def Timestamp.date (t : Timestamp) : Int := daysFromCivil t.year t.month t.day

/-- Python exceptions raised by the client, one constructor per reachable
raise site / exception class.  The spec's `FormatError` corresponds to
`jsonDecodeError` and `typeErrorTopDict`; its `NotFoundError` corresponds to
`valueErrorRegionNotFound` / `valueErrorPartregionNotFound`. -/
inductive PyErr where
  | jsonDecodeError
  | typeErrorTopDict
  | typeErrorNotIterable
  | typeErrorStrptime
  | typeErrorUnorderable
  | attributeErrorItems
  | attributeErrorGet
  | attributeErrorNoneDate
  | valueErrorStrptime
  | valueErrorBadInt (s : String)
  | valueErrorRegionNotFound (region : String)
  | valueErrorPartregionNotFound (partregion : String)
  | valueErrorNoDay
  | keyErrorCode (code : JVal)
  | keyErrorId
  | stopIteration
deriving DecidableEq

/-- Python truthiness of a JSON value (`bool(v)`). -/
def jFalsy : JVal → Bool
  | .null => true
  | .bool b => !b
  | .str s => s.data.isEmpty
  | .num n => n == 0
  | .obj kvs => kvs.isEmpty
  | .arr xs => xs.isEmpty

/-- Python `a or b` where `a` is `entry.get(...)` (`None` or a value). -/
def pyOr (a b : Option JVal) : Option JVal :=
  match a with
  | none => b
  | some v => if jFalsy v then b else some v

/-- `pollen_data[ptype] = (severity, desc)`: the tuple stored per pollen
type (`client.py` line 90). -/
abbrev PollenPair := Int × Option JVal

/-- The per-day mapping `{ptype: (severity, desc)}`. -/
abbrev PollenDay := List (String × PollenPair)

/-- `self._pollendata[region_id][partregion_id]`: `{day: {ptype: pair}}`. -/
abbrev PollenTable := List (String × PollenDay)

/-- The mutable attributes of `PollenApiDwd` (`__init__`, lines 21-32;
`raw_data` is the transport input and is passed separately). -/
structure State where
  name : Option JVal
  sender : Option JVal
  legend : List (JVal × LegendEntry)
  last_update : Option Timestamp
  next_update : Option Timestamp
  pollendata : List (Option JVal × List (Option JVal × PollenTable))
  id2region : List (Option JVal × Option JVal)
  region_id2partregions : List (Option JVal × List PartEntry)
  region2id : List (Option JVal × Option JVal)

/-- `PollenApiDwd.__init__` (lines 21-32): `""` for `name`/`sender`, `None`
timestamps, empty dictionaries. -/
def initState : State :=
  { name := some (.str "")
    sender := some (.str "")
    legend := []
    last_update := none
    next_update := none
    pollendata := []
    id2region := []
    region_id2partregions := []
    region2id := [] }

/-! ## Feed parsing (`_parse_legend`, `_parse_pollendata`,
`_parse_timestamp`, `_parse_data`) -/

/-- Is `key` treated as a severity-code key by `_parse_legend` (line 78):
`key.startswith("id") and "_desc" not in key`. -/
def isCodeKey (key : String) : Bool :=
  strStarts key "id" && !(strContainsSub key "_desc")

/-- The loop body of `_parse_legend` (lines 77-82) over the remaining
items, with `all` the full legend dictionary (for the `_desc` lookups) and
`acc` the `parsed` dictionary built so far.  A key whose digits do not
parse makes `int()` raise `ValueError`. -/
def parseLegendAux (all : List (String × JVal)) :
    List (String × JVal) → List (JVal × LegendEntry) →
    Except PyErr (List (JVal × LegendEntry))
  | [], acc => .ok acc
  | (key, value) :: rest, acc =>
    if isCodeKey key then
      match pyIntOfString (strEraseId key) with
      | none => .error (.valueErrorBadInt (strEraseId key))
      | some n =>
        parseLegendAux all rest
          (dinsert acc value ⟨n - 1, dget all (key ++ "_desc")⟩)
    else
      parseLegendAux all rest acc

/-- `PollenApiDwd._parse_legend` (lines 73-83).  Iterating `.items()` of a
non-object raises `AttributeError`. -/
def parseLegend (legend : JVal) : Except PyErr (List (JVal × LegendEntry)) :=
  match legend with
  | .obj kvs => parseLegendAux kvs kvs []
  | _ => .error .attributeErrorItems

/-- `self.legend[value]` (line 90): subscripting the legend dictionary
raises `KeyError` when the severity code has no legend entry. -/
def legendSubscript (legend : List (JVal × LegendEntry)) (value : JVal) :
    Except PyErr LegendEntry :=
  match dget legend value with
  | some e => .ok e
  | none => .error (.keyErrorCode value)

/-- Inner loop of `_parse_pollendata` (lines 89-90) over one pollen type's
day dictionary: `parsed.setdefault(day, {})[ptype] = (severity, desc)`. -/
def parsePollenDays (legend : List (JVal × LegendEntry)) (ptype : String) :
    List (String × JVal) → PollenTable → Except PyErr PollenTable
  | [], parsed => .ok parsed
  | (day, value) :: rest, parsed =>
    match legendSubscript legend value with
    | .error e => .error e
    | .ok entry =>
      parsePollenDays legend ptype rest
        (dinsert parsed day
          (dinsert ((dget parsed day).getD []) ptype (entry.severity, entry.desc)))

/-- Outer loop of `_parse_pollendata` (lines 88-90) over the pollen types.
Iterating `.items()` of a non-object day dictionary raises
`AttributeError`. -/
def parsePollenTypes (legend : List (JVal × LegendEntry)) :
    List (String × JVal) → PollenTable → Except PyErr PollenTable
  | [], parsed => .ok parsed
  | (ptype, pdata) :: rest, parsed =>
    match pdata with
    | .obj days =>
      match parsePollenDays legend ptype days parsed with
      | .error e => .error e
      | .ok parsed2 => parsePollenTypes legend rest parsed2
    | _ => .error .attributeErrorItems

/-- `PollenApiDwd._parse_pollendata` (lines 85-91).  The argument is
`entry.get("Pollen")`: if the key was absent (`None`) or not an object,
`.items()` raises `AttributeError`.  (The local `today = self.last_update`
on line 87 is dead code and not modelled.) -/
def parsePollendata (legend : List (JVal × LegendEntry)) (pd : Option JVal) :
    Except PyErr PollenTable :=
  match pd with
  | some (.obj ptypes) => parsePollenTypes legend ptypes []
  | _ => .error .attributeErrorItems

/-- `year % 4 == 0 and year % 100 != 0 or year % 400 == 0`. -/
def isLeapYear (y : Int) : Bool := (y % 4 == 0 && !(y % 100 == 0)) || y % 400 == 0

/-- Days in a Gregorian month, for `strptime` day-of-month validation. -/
def daysInMonth (y m : Int) : Int :=
  if m = 2 then (if isLeapYear y then 29 else 28)
  else if m = 4 ∨ m = 6 ∨ m = 9 ∨ m = 11 then 30
  else 31

/-- `datetime.datetime.strptime(s, "%Y-%m-%d %H:%M Uhr")` (line 97): split
on the literal separators, parse decimal components, validate ranges;
mismatches raise `ValueError`.  (CPython also accepts some leading-zero
variations; the feed always uses the canonical zero-padded form.) -/
def strptimeFixed (s : String) : Except PyErr Timestamp :=
  match s.splitOn " " with
  | [datePart, timePart, tail] =>
    if tail = "Uhr" then
      match datePart.splitOn "-", timePart.splitOn ":" with
      | [ys, ms, ds], [hs, mins] =>
        match digitsToNatAux 0 ys.data, digitsToNatAux 0 ms.data,
            digitsToNatAux 0 ds.data, digitsToNatAux 0 hs.data,
            digitsToNatAux 0 mins.data with
        | some y, some m, some d, some hh, some mi =>
          if ys ≠ "" ∧ ms ≠ "" ∧ ds ≠ "" ∧ hs ≠ "" ∧ mins ≠ "" ∧
              1 ≤ m ∧ m ≤ 12 ∧ 1 ≤ d ∧ (d : Int) ≤ daysInMonth y m ∧
              hh < 24 ∧ mi < 60 then
            .ok ⟨y, m, d, hh, mi⟩
          else .error .valueErrorStrptime
        | _, _, _, _, _ => .error .valueErrorStrptime
      | _, _ => .error .valueErrorStrptime
    else .error .valueErrorStrptime
  | _ => .error .valueErrorStrptime

/-- `PollenApiDwd._parse_timestamp` (lines 93-97): falsy input (`None`, or
an empty/zero value) yields `None`; a non-string raises `TypeError` inside
`strptime`; otherwise the fixed pattern is parsed. -/
def parseTimestamp (v : Option JVal) : Except PyErr (Option Timestamp) :=
  match v with
  | none => .ok none
  | some jv =>
    if jFalsy jv then .ok none
    else
      match jv with
      | .str s => (strptimeFixed s).map some
      | _ => .error .typeErrorStrptime

/-- One iteration of the `for entry in data.get("content")` loop
(`_parse_data`, lines 56-71), as a state transformer returning the raised
exception (if any) together with the state at that point — on a raise the
mutations already performed persist, exactly as in Python.  A non-object
entry raises `AttributeError` at the first `entry.get`. -/
def processEntry (st : State) (entry : JVal) : Option PyErr × State :=
  match entry with
  | .obj ekvs =>
    let region := dget ekvs "region_name"
    let region_id := dget ekvs "region_id"
    let partregion := pyOr (dget ekvs "partregion_name") region
    let partregion_id := dget ekvs "partregion_id"
    let pdata := dget ekvs "Pollen"
    let st1 := { st with id2region := dinsert st.id2region region_id region }
    let st2 := { st1 with region2id := dinsert st1.region2id region region_id }
    let prev := (dget st2.region_id2partregions region_id).getD []
    let newParts := prev ++ [PartEntry.mk partregion_id partregion]
    let st3 := { st2 with region_id2partregions := dinsert st2.region_id2partregions region_id newParts }
    let prevPd := (dget st3.pollendata region_id).getD []
    let st4 := { st3 with pollendata := dinsert st3.pollendata region_id prevPd }
    match parsePollendata st4.legend pdata with
    | .error e => (some e, st4)
    | .ok tbl =>
      (none, { st4 with pollendata := dinsert st4.pollendata region_id (dinsert prevPd partregion_id tbl) })
  | _ => (some .attributeErrorGet, st)

/-- The `for entry in data.get("content")` loop over all entries. -/
def parseContentLoop (st : State) : List JVal → Option PyErr × State
  | [] => (none, st)
  | e :: rest =>
    match processEntry st e with
    | (some err, st2) => (some err, st2)
    | (none, st2) => parseContentLoop st2 rest

/-- `PollenApiDwd._parse_data` (lines 44-71).  The raw input is the result
of `json.loads(self.raw_data)`: `none` models malformed JSON (where
`json.loads` raises `json.JSONDecodeError` before any attribute is
touched).  A non-dictionary top level raises
`TypeError("Expected top-level JSON object to be a dictionary")`.  The
assignments then happen in source order, so a later raise leaves the
earlier assignments in place.  Iterating `data.get("content")` when the
key is absent (`None`) or a number raises `TypeError`; iterating a
non-empty object or string yields strings, whose `.get` raises
`AttributeError`. -/
def parseData (st : State) (raw : Option JVal) : Option PyErr × State :=
  match raw with
  | none => (some .jsonDecodeError, st)
  | some data =>
    match data with
    | .obj kvs =>
      let st1 := { st with name := dget kvs "name", sender := dget kvs "sender" }
      match parseTimestamp (dget kvs "last_update") with
      | .error e => (some e, st1)
      | .ok lu =>
        let st2 := { st1 with last_update := lu }
        match parseTimestamp (dget kvs "next_update") with
        | .error e => (some e, st2)
        | .ok nu =>
          let st3 := { st2 with next_update := nu }
          match parseLegend ((dget kvs "legend").getD (.obj [])) with
          | .error e => (some e, st3)
          | .ok lg =>
            let st4 := { st3 with legend := lg }
            match dget kvs "content" with
            | some (.arr entries) => parseContentLoop st4 entries
            | some (.obj []) => (none, st4)
            | some (.obj (_ :: _)) => (some .attributeErrorGet, st4)
            | some (.str s) =>
              if s.data.isEmpty then (none, st4) else (some .attributeErrorGet, st4)
            | _ => (some .typeErrorNotIterable, st4)
    | _ => (some .typeErrorTopDict, st)

/-! ## The query engine (`region_id`, `regions`, `partregion_id`,
`partregions`, `pollen`) -/

/-- `DAY_KEYS = ("today", "tomorrow", "dayafter_to")` (line 13). -/
def DAY_KEYS : List String := ["today", "tomorrow", "dayafter_to"]

/-- The effective `PollenApiDwd.region_id` (lines 135-136); note the class
defines `region_id` twice and this later definition, which uses
`dict.get` and so returns `None` for an unknown region, shadows the
earlier one on lines 99-100 (which would have raised `KeyError`).
A stored id of `None` and an absent key are indistinguishable, as in
Python. -/
def State.region_id (st : State) (region_name : String) : Option JVal :=
  (dget st.region2id (some (.str region_name))).getD none

/-- Are all keys strings?  If so, return them (in order) as `String`s;
a `None` or non-string key yields `none`. -/
def allStrKeys : List (Option JVal) → Option (List String)
  | [] => some []
  | some (.str s) :: rest => (allStrKeys rest).map (fun l => s :: l)
  | _ => none

/-- `sorted(keys)` for the keys of `self._region2id`.  CPython compares
adjacent elements: an empty or single-element list never compares, an
all-string list sorts lexicographically by code point, and any comparison
between a string and `None` (or another non-string) raises `TypeError`.
Uniform lists of some other comparable type would also sort; the feed only
ever produces string (or, for defective entries, `None`) names, so only
the string case is modelled as succeeding with more than one element. -/
def sortedKeys (ks : List (Option JVal)) : Except PyErr (List (Option JVal)) :=
  match ks with
  | [] => .ok []
  | [k] => .ok [k]
  | _ =>
    match allStrKeys ks with
    | some names =>
      .ok ((List.insertionSort strLeP names).map (fun s => some (.str s)))
    | none => .error .typeErrorUnorderable

/-- `PollenApiDwd.regions` (lines 102-105): `sorted(self._region2id.keys())`. -/
def State.regionsE (st : State) : Except PyErr (List (Option JVal)) :=
  sortedKeys (dkeys st.region2id)

/-- `self._region_id2partregions[region_id]` subscript: raises `KeyError`
when absent. -/
def State.partsOf (st : State) (rid : Option JVal) : Except PyErr (List PartEntry) :=
  match dget st.region_id2partregions rid with
  | some entries => .ok entries
  | none => .error .keyErrorId

/-- `PollenApiDwd.partregions` (lines 112-115). -/
def State.partregionsE (st : State) (region : String) :
    Except PyErr (List (Option JVal)) :=
  match st.partsOf (st.region_id region) with
  | .error e => .error e
  | .ok entries => .ok (entries.map PartEntry.name)

/-- `PollenApiDwd.partregion_id` (lines 107-110): `next(...)` over the
entries with a matching name raises `StopIteration` when none matches. -/
def State.partregion_idE (st : State) (region partregion : String) :
    Except PyErr (Option JVal) :=
  match st.partsOf (st.region_id region) with
  | .error e => .error e
  | .ok entries =>
    match entries.find? (fun e => e.name = some (.str partregion)) with
    | some e => .ok e.id
    | none => .error .stopIteration

/-- Lines 129-133 of `PollenApiDwd.pollen`: everything after the day-window
check, for a resolved day key: `self._pollendata[region_id][partregion_id]`
(two `KeyError`-raising subscripts) followed by `.get(day_key)`. -/
def State.pollenLookup (st : State) (region partregion day_key : String) :
    Except PyErr (Option PollenDay) :=
  let rid := st.region_id region
  match st.partregion_idE region partregion with
  | .error e => .error e
  | .ok pid =>
    match dget st.pollendata rid with
    | none => .error .keyErrorId
    | some tbl =>
      match dget tbl pid with
      | none => .error .keyErrorId
      | some days => .ok (dget days day_key)

/-- `PollenApiDwd.pollen` (lines 117-133).  `now` is
`datetime.datetime.now(TZ).date()` as a day count (the caller's current
date), passed explicitly since the embedding is pure.  `self.last_update`
being `None` would raise `AttributeError` on `.date()`.  The guard on
`day_diff` precedes the `DAY_KEYS[day_diff]` subscript, so the subscript
never sees an out-of-range index (the `getD` default is unreachable). -/
def State.pollen (st : State) (now : Int) (region partregion : String)
    (days_ahead : Int) : Except PyErr (Option PollenDay) :=
  match st.regionsE with
  | .error e => .error e
  | .ok regs =>
    if some (.str region) ∈ regs then
      match st.partregionsE region with
      | .error e => .error e
      | .ok parts =>
        if some (.str partregion) ∈ parts then
          match st.last_update with
          | none => .error .attributeErrorNoneDate
          | some ts =>
            let day_diff := now + days_ahead - ts.date
            if day_diff < 0 ∨ 3 ≤ day_diff then .error .valueErrorNoDay
            else st.pollenLookup region partregion (DAY_KEYS.getD day_diff.toNat "")
        else .error (.valueErrorPartregionNotFound partregion)
    else .error (.valueErrorRegionNotFound region)

deriving instance DecidableEq for Except

/-! ## Concrete fixtures (mirroring `tests/test_client.py`) -/

def legendTest : List (JVal × LegendEntry) :=
  [(.str "0", ⟨0, some (.str "keine Belastung")⟩),
   (.str "0-1", ⟨1, some (.str "keine bis geringe Belastung")⟩),
   (.str "1", ⟨2, some (.str "geringe Belastung")⟩)]

def tsTest : Timestamp := ⟨2025, 5, 4, 11, 0⟩

def dTest : Int := tsTest.date

def ptableTest : PollenTable :=
  [("today", [("Birke", (1, some (.str "keine bis geringe Belastung")))])]

def stTest : State :=
  { name := some (.str "Pollenflug-Gefahrenindex")
    sender := some (.str "Deutscher Wetterdienst")
    legend := legendTest
    last_update := some tsTest
    next_update := none
    pollendata := [(some (.num 120), [(some (.num 124), ptableTest)])]
    id2region := [(some (.num 120), some (.str "Bayern"))]
    region_id2partregions :=
      [(some (.num 120), [PartEntry.mk (some (.num 124)) (some (.str "Mainfranken"))])]
    region2id := [(some (.str "Bayern"), some (.num 120))] }


/-- A feed whose first content entry has no `region_name` (and a second,
complete entry), for exercising `_parse_data` on defective entries. -/
def feedC7 : JVal :=
  .obj [("content", .arr [
    .obj [("partregion_name", .str "Ghost"), ("region_id", .num 99),
          ("partregion_id", .num 991), ("Pollen", .obj [])],
    .obj [("region_name", .str "Bayern"), ("region_id", .num 120),
          ("partregion_name", .str "Mainfranken"), ("partregion_id", .num 124),
          ("Pollen", .obj [])]])]


/-! ## Feed-order specification for `partregions` -/

/-- The `PartEntry` that `processEntry` appends under region id `rid` for a
given content entry, if any: present exactly when the entry is an object
whose `region_id` equals `rid`. -/
def entryPart (rid : Option JVal) (entry : JVal) : Option PartEntry :=
  match entry with
  | .obj ekvs =>
    if dget ekvs "region_id" = rid then
      some (PartEntry.mk (dget ekvs "partregion_id")
        (pyOr (dget ekvs "partregion_name") (dget ekvs "region_name")))
    else none
  | _ => none

/-- The sub-region entries belonging to region id `rid`, in the order their
entries appear in the feed's `content` array. -/
def partsOfEntries (rid : Option JVal) (entries : List JVal) : List PartEntry :=
  entries.filterMap (entryPart rid)

/-- Running the content loop to completion appends, per region id, exactly
the sub-region entries of that region id in content order (after any
previously stored ones). -/
theorem parseContentLoop_parts (entries : List JVal) (st st2 : State)
    (h : parseContentLoop st entries = (none, st2)) (rid : Option JVal) :
    dget st2.region_id2partregions rid =
      if partsOfEntries rid entries = [] then dget st.region_id2partregions rid
      else some ((dget st.region_id2partregions rid).getD [] ++ partsOfEntries rid entries) := by
  induction entries generalizing st with
  | nil =>
    simp only [parseContentLoop] at h
    injection h with h1 h2
    subst h2
    simp [partsOfEntries]
  | cons e rest ih =>
    simp only [parseContentLoop] at h
    match he : processEntry st e with
    | (some err, st1) => rw [he] at h; exact absurd h (by simp)
    | (none, st1) =>
      rw [he] at h
      have hrec := ih st1 h
      cases e with
      | obj ekvs =>
        simp only [processEntry] at he
        match hres : parsePollendata st.legend (dget ekvs "Pollen") with
        | .error err2 =>
          rw [hres] at he
          exact absurd he (by simp)
        | .ok tbl =>
          rw [hres] at he
          injection he with he1 he2
          subst he2
          by_cases hrid : dget ekvs "region_id" = rid
          · have hep : entryPart rid (JVal.obj ekvs) =
                some (PartEntry.mk (dget ekvs "partregion_id")
                  (pyOr (dget ekvs "partregion_name") (dget ekvs "region_name"))) := by
              simp [entryPart, hrid]
            rw [hrid] at hrec
            simp only [dget_dinsert_self, Option.getD_some] at hrec
            rw [hrec]
            simp only [partsOfEntries, List.filterMap_cons, hep]
            by_cases hrest : List.filterMap (entryPart rid) rest = []
            · simp [hrest]
            · simp [hrest, List.append_assoc]
          · have hne : rid ≠ dget ekvs "region_id" := fun hh => hrid hh.symm
            have hep : entryPart rid (JVal.obj ekvs) = none := by
              simp [entryPart, hrid]
            simp only [dget_dinsert_ne _ _ _ _ hne] at hrec
            rw [hrec]
            simp only [partsOfEntries, List.filterMap_cons, hep]
      | null => simp [processEntry] at he
      | bool b => simp [processEntry] at he
      | str s => simp [processEntry] at he
      | num n => simp [processEntry] at he
      | arr xs => simp [processEntry] at he

/-- When every region key is a string, `regions` succeeds and returns
exactly the insertion sort of the names under `strLeP`. -/
theorem regionsE_of_strings (st : State) (names : List String)
    (hnames : allStrKeys (dkeys st.region2id) = some names) :
    st.regionsE = .ok ((List.insertionSort strLeP names).map (fun s => some (.str s))) := by
  unfold State.regionsE sortedKeys
  match hks : dkeys st.region2id with
  | [] =>
    rw [hks] at hnames
    simp only [allStrKeys] at hnames
    injection hnames with hn
    subst hn
    simp [List.insertionSort]
  | [k] =>
    rw [hks] at hnames
    match k with
    | none => simp [allStrKeys] at hnames
    | some .null => simp [allStrKeys] at hnames
    | some (.bool b) => simp [allStrKeys] at hnames
    | some (.num n) => simp [allStrKeys] at hnames
    | some (.obj kvs) => simp [allStrKeys] at hnames
    | some (.arr xs) => simp [allStrKeys] at hnames
    | some (.str s) =>
      simp only [allStrKeys, Option.map_some] at hnames
      injection hnames with hn
      subst hn
      simp [List.insertionSort, List.orderedInsert]
  | k1 :: k2 :: ks =>
    rw [hks] at hnames
    simp [hnames]

/-- Evaluation of `pollen` when the region and sub-region membership checks
pass and the resolved day offset lies inside the published window: the
result is the post-guard lookup at `DAY_KEYS[day_diff]`. -/
theorem pollen_in_window (st : State) (now days_ahead : Int)
    (region partregion : String) (ts : Timestamp)
    (regs parts : List (Option JVal))
    (hreg : st.regionsE = .ok regs) (hr : some (.str region) ∈ regs)
    (hparts : st.partregionsE region = .ok parts)
    (hp : some (.str partregion) ∈ parts)
    (hlu : st.last_update = some ts)
    (h0 : 0 ≤ now + days_ahead - ts.date)
    (h3 : now + days_ahead - ts.date < 3) :
    st.pollen now region partregion days_ahead =
      st.pollenLookup region partregion
        (DAY_KEYS.getD (now + days_ahead - ts.date).toNat "") := by
  unfold State.pollen
  rw [hreg, hparts, hlu]
  have hcond : ¬ (now + days_ahead - ts.date < 0 ∨ 3 ≤ now + days_ahead - ts.date) := by
    omega
  simp only [if_pos hr, if_pos hp, if_neg hcond]

/-- Evaluation of `pollen` when the region and sub-region membership checks
pass but the resolved day offset falls outside `[0, 3)`: the call raises
`ValueError("No data available for requested day")`. -/
theorem pollen_out_of_window (st : State) (now days_ahead : Int)
    (region partregion : String) (ts : Timestamp)
    (regs parts : List (Option JVal))
    (hreg : st.regionsE = .ok regs) (hr : some (.str region) ∈ regs)
    (hparts : st.partregionsE region = .ok parts)
    (hp : some (.str partregion) ∈ parts)
    (hlu : st.last_update = some ts)
    (hout : now + days_ahead - ts.date < 0 ∨ 3 ≤ now + days_ahead - ts.date) :
    st.pollen now region partregion days_ahead = .error .valueErrorNoDay := by
  unfold State.pollen
  rw [hreg, hparts, hlu]
  simp only [if_pos hr, if_pos hp, if_pos hout]

/-- Invariant of the `_parse_legend` loop: if `key` is the only code key
whose value is `v` (among the remaining items), and either `(key, v)` is
still to be processed or `parsed` already holds the entry for `v`, then on
success the final dictionary holds severity `n - 1` and the `_desc` value
for `v`. -/
theorem parseLegendAux_dget (all : List (String × JVal)) (key : String)
    (n : Int) (v : JVal)
    (hck : isCodeKey key = true)
    (hn : pyIntOfString (strEraseId key) = some n) :
    ∀ (rem : List (String × JVal)) (acc res : List (JVal × LegendEntry)),
      parseLegendAux all rem acc = .ok res →
      (∀ p ∈ rem, isCodeKey p.1 = true → p.2 = v → p.1 = key) →
      ((key, v) ∈ rem ∨ dget acc v = some ⟨n - 1, dget all (key ++ "_desc")⟩) →
      dget res v = some ⟨n - 1, dget all (key ++ "_desc")⟩ := by
  intro rem
  induction rem with
  | nil =>
    intro acc res hok hall hstart
    simp only [parseLegendAux] at hok
    injection hok with h
    subst h
    rcases hstart with h | h
    · simp at h
    · exact h
  | cons p rest ih =>
    intro acc res hok hall hstart
    obtain ⟨k0, v0⟩ := p
    simp only [parseLegendAux] at hok
    by_cases hck0 : isCodeKey k0 = true
    · rw [if_pos hck0] at hok
      cases hpi : pyIntOfString (strEraseId k0) with
      | none => rw [hpi] at hok; exact absurd hok (by simp)
      | some n0 =>
        rw [hpi] at hok
        apply ih _ res hok (fun q hq => hall q (List.mem_cons_of_mem _ hq))
        rcases hstart with hmem | hacc
        · rcases List.mem_cons.mp hmem with heq | hmem2
          · injection heq with hk hv
            subst hk
            subst hv
            right
            rw [hn] at hpi
            injection hpi with hn0
            subst hn0
            exact dget_dinsert_self acc v _
          · left
            exact hmem2
        · by_cases hveq : v0 = v
          · have hk0 : k0 = key := hall (k0, v0) (List.mem_cons_self _ _) hck0 hveq
            subst hk0
            subst hveq
            right
            rw [hn] at hpi
            injection hpi with hn0
            subst hn0
            exact dget_dinsert_self acc v0 _
          · right
            rw [dget_dinsert_ne _ _ _ _ (fun hh => hveq hh.symm)]
            exact hacc
    · rw [if_neg hck0] at hok
      apply ih _ res hok (fun q hq => hall q (List.mem_cons_of_mem _ hq))
      rcases hstart with hmem | hacc
      · rcases List.mem_cons.mp hmem with heq | hmem2
        · injection heq with hk hv
          subst hk
          exact absurd hck hck0
        · left
          exact hmem2
      · right
        exact hacc

/-- The `_parse_legend` loop succeeds whenever the digits of every code key
parse as an integer — in particular a missing `id{N}_desc` key never makes
it fail. -/
theorem parseLegendAux_ok (all : List (String × JVal)) :
    ∀ (rem : List (String × JVal)) (acc : List (JVal × LegendEntry)),
      (∀ p ∈ rem, isCodeKey p.1 = true → (pyIntOfString (strEraseId p.1)).isSome) →
      ∃ res, parseLegendAux all rem acc = .ok res := by
  intro rem
  induction rem with
  | nil =>
    intro acc hints
    exact ⟨acc, rfl⟩
  | cons p rest ih =>
    intro acc hints
    obtain ⟨k0, v0⟩ := p
    simp only [parseLegendAux]
    by_cases hck0 : isCodeKey k0 = true
    · rw [if_pos hck0]
      cases hpi : pyIntOfString (strEraseId k0) with
      | none =>
        have := hints (k0, v0) (List.mem_cons_self _ _) hck0
        rw [hpi] at this
        simp at this
      | some n0 =>
        exact ih _ (fun q hq => hints q (List.mem_cons_of_mem _ hq))
    · rw [if_neg hck0]
      exact ih _ (fun q hq => hints q (List.mem_cons_of_mem _ hq))

/-! ## Claim theorems -/

/-- Claim C1: for every query `pollen(region, partregion, days_ahead)` made
when the caller's current date is `now` and the parsed `last_update` date
is `D`, the day slot used is index `(now + days_ahead) - D` in whole days;
indices `0`, `1`, `2` select the `"today"`, `"tomorrow"`, `"dayafter_to"`
slots respectively (given that the region/sub-region checks pass, which is
what it means for a slot to be used at all). -/
theorem C1_pollen_dayslot_resolution (st : State) (now days_ahead D : Int)
    (region partregion : String) (ts : Timestamp)
    (regs parts : List (Option JVal))
    (hreg : st.regionsE = .ok regs) (hr : some (.str region) ∈ regs)
    (hparts : st.partregionsE region = .ok parts)
    (hp : some (.str partregion) ∈ parts)
    (hlu : st.last_update = some ts) (hD : ts.date = D) :
    ((now + days_ahead) - D = 0 →
      st.pollen now region partregion days_ahead =
        st.pollenLookup region partregion "today") ∧
    ((now + days_ahead) - D = 1 →
      st.pollen now region partregion days_ahead =
        st.pollenLookup region partregion "tomorrow") ∧
    ((now + days_ahead) - D = 2 →
      st.pollen now region partregion days_ahead =
        st.pollenLookup region partregion "dayafter_to") := by
  subst hD
  refine ⟨fun h => ?_, fun h => ?_, fun h => ?_⟩ <;>
    rw [pollen_in_window st now days_ahead region partregion ts regs parts
      hreg hr hparts hp hlu (by omega) (by omega)] <;>
    rw [show now + days_ahead - ts.date = (now + days_ahead) - ts.date from rfl, h] <;>
    rfl

/-- Witness for C1 on a concrete snapshot: with the caller's date equal to
the `last_update` date, look-aheads 0, 1, 2 resolve to the three slots. -/
theorem C1_pollen_dayslot_resolution_witness :
    stTest.pollen dTest "Bayern" "Mainfranken" 0 =
      stTest.pollenLookup "Bayern" "Mainfranken" "today" ∧
    stTest.pollen dTest "Bayern" "Mainfranken" 1 =
      stTest.pollenLookup "Bayern" "Mainfranken" "tomorrow" ∧
    stTest.pollen dTest "Bayern" "Mainfranken" 2 =
      stTest.pollenLookup "Bayern" "Mainfranken" "dayafter_to" := by
  refine ⟨?_, ?_, ?_⟩
  · exact (C1_pollen_dayslot_resolution stTest dTest 0 tsTest.date "Bayern" "Mainfranken"
      tsTest [some (.str "Bayern")] [some (.str "Mainfranken")]
      (by decide) (by decide) (by decide) (by decide) (by decide) rfl).1 (by decide)
  · exact (C1_pollen_dayslot_resolution stTest dTest 1 tsTest.date "Bayern" "Mainfranken"
      tsTest [some (.str "Bayern")] [some (.str "Mainfranken")]
      (by decide) (by decide) (by decide) (by decide) (by decide) rfl).2.1 (by decide)
  · exact (C1_pollen_dayslot_resolution stTest dTest 2 tsTest.date "Bayern" "Mainfranken"
      tsTest [some (.str "Bayern")] [some (.str "Mainfranken")]
      (by decide) (by decide) (by decide) (by decide) (by decide) rfl).2.2 (by decide)

/-- Claim C2, counterexample: on a known region and sub-region, a query
whose resolved day-slot index falls outside `[0, 3)` does NOT return an
empty/no-data result — the call raises
`ValueError("No data available for requested day")` (`client.py` line 127).
Here `days_ahead = 5` on the publication date itself. -/
theorem C2_out_of_window_counterexample :
    stTest.pollen dTest "Bayern" "Mainfranken" 5 = .error .valueErrorNoDay := by
  decide

/-- Claim C2, amended: for every query on a known region and sub-region
whose resolved day-slot index `(now + days_ahead) - last_update_date`
falls outside `[0, 3)`, `pollen` raises
`ValueError("No data available for requested day")` — in particular it
never raises an index error (the guard precedes the `DAY_KEYS` subscript),
but it does not return an empty result either. -/
theorem C2_out_of_window_raises (st : State) (now days_ahead : Int)
    (region partregion : String) (ts : Timestamp)
    (regs parts : List (Option JVal))
    (hreg : st.regionsE = .ok regs) (hr : some (.str region) ∈ regs)
    (hparts : st.partregionsE region = .ok parts)
    (hp : some (.str partregion) ∈ parts)
    (hlu : st.last_update = some ts)
    (hout : now + days_ahead - ts.date < 0 ∨ 3 ≤ now + days_ahead - ts.date) :
    st.pollen now region partregion days_ahead = .error .valueErrorNoDay :=
  pollen_out_of_window st now days_ahead region partregion ts regs parts
    hreg hr hparts hp hlu hout

/-- Witness for C2 (amended) at a concrete input on the negative side of
the window (`days_ahead = -1` on the publication date). -/
theorem C2_out_of_window_raises_witness :
    stTest.pollen dTest "Bayern" "Mainfranken" (-1) = .error .valueErrorNoDay :=
  C2_out_of_window_raises stTest dTest (-1) "Bayern" "Mainfranken" tsTest
    [some (.str "Bayern")] [some (.str "Mainfranken")]
    (by decide) (by decide) (by decide) (by decide) (by decide) (by decide)

/-- Claim C3: for every snapshot and call `pollen(region, partregion, _)`,
an unknown region name fails with the region not-found error and a known
region with an unknown sub-region name fails with the sub-region
not-found error (the spec's `NotFoundError`; the code raises `ValueError`
with the corresponding message, lines 119-122) — never a silent empty
result. -/
theorem C3_unknown_region_or_partregion_raises (st : State)
    (now days_ahead : Int) (region partregion : String) :
    (∀ regs, st.regionsE = .ok regs → some (.str region) ∉ regs →
      st.pollen now region partregion days_ahead =
        .error (.valueErrorRegionNotFound region)) ∧
    (∀ regs parts, st.regionsE = .ok regs → some (.str region) ∈ regs →
      st.partregionsE region = .ok parts → some (.str partregion) ∉ parts →
      st.pollen now region partregion days_ahead =
        .error (.valueErrorPartregionNotFound partregion)) := by
  constructor
  · intro regs hreg hnot
    unfold State.pollen
    rw [hreg]
    simp only [if_neg hnot]
  · intro regs parts hreg hmem hparts hnot
    unfold State.pollen
    rw [hreg, hparts]
    simp only [if_pos hmem, if_neg hnot]

/-- Witness for C3 on the concrete snapshot: unknown region, then known
region with unknown sub-region. -/
theorem C3_unknown_region_or_partregion_raises_witness :
    stTest.pollen dTest "Atlantis" "Mainfranken" 0 =
      .error (.valueErrorRegionNotFound "Atlantis") ∧
    stTest.pollen dTest "Bayern" "Atlantis" 0 =
      .error (.valueErrorPartregionNotFound "Atlantis") := by
  constructor
  · exact (C3_unknown_region_or_partregion_raises stTest dTest 0 "Atlantis"
      "Mainfranken").1 [some (.str "Bayern")] (by decide) (by decide)
  · exact (C3_unknown_region_or_partregion_raises stTest dTest 0 "Bayern"
      "Atlantis").2 [some (.str "Bayern")] [some (.str "Mainfranken")]
      (by decide) (by decide) (by decide) (by decide)

/-- Claim C4, counterexample: in the legend `{"id1": "0", "id2": "0"}` the
key `"id1"` has the form `id{N}` with `N = 1` and value `"0"`, but the
parsed legend maps the code `"0"` to severity `1` (the later code key
`"id2"` overwrote it), not to `N - 1 = 0` as the claim requires for every
code key. -/
theorem C4_legend_duplicate_value_counterexample :
    ("id1", JVal.str "0") ∈ [("id1", JVal.str "0"), ("id2", JVal.str "0")] ∧
    isCodeKey "id1" = true ∧
    pyIntOfString (strEraseId "id1") = some 1 ∧
    parseLegend (.obj [("id1", JVal.str "0"), ("id2", JVal.str "0")]) =
      .ok [(JVal.str "0", ⟨1, none⟩)] ∧
    dget [(JVal.str "0", (⟨1, none⟩ : LegendEntry))] (JVal.str "0") ≠
      some ⟨1 - 1, dget [("id1", JVal.str "0"), ("id2", JVal.str "0")] ("id1" ++ "_desc")⟩ := by
  decide

/-- Claim C4, amended: for every legend mapping and every key of the form
`id{N}` (starts with `"id"`, no `"_desc"`, digits parsing as `N`) with
value `v`, PROVIDED `v` is not also the value of another code key
(duplicate code values: the last such key wins), the parsed legend maps
the code `v` to severity `N - 1` and to the description stored under
`id{N}_desc` (absent, without the parse failing, when that key is absent
— the parse succeeds whenever every code key's digits parse); and the
decoded ranks are strictly increasing in `N` across such keys. -/
theorem C4_legend_decode (kvs : List (String × JVal)) (key : String)
    (n : Int) (v : JVal)
    (hck : isCodeKey key = true)
    (hn : pyIntOfString (strEraseId key) = some n)
    (hmem : (key, v) ∈ kvs)
    (huniq : ∀ p ∈ kvs, isCodeKey p.1 = true → p.2 = v → p.1 = key) :
    (∀ parsed, parseLegend (.obj kvs) = .ok parsed →
      dget parsed v = some ⟨n - 1, dget kvs (key ++ "_desc")⟩) ∧
    ((∀ p ∈ kvs, isCodeKey p.1 = true → (pyIntOfString (strEraseId p.1)).isSome) →
      ∃ parsed, parseLegend (.obj kvs) = .ok parsed) ∧
    (∀ parsed key2 n2 v2, parseLegend (.obj kvs) = .ok parsed →
      isCodeKey key2 = true → pyIntOfString (strEraseId key2) = some n2 →
      (key2, v2) ∈ kvs →
      (∀ p ∈ kvs, isCodeKey p.1 = true → p.2 = v2 → p.1 = key2) →
      n < n2 →
      ∃ e1 e2, dget parsed v = some e1 ∧ dget parsed v2 = some e2 ∧
        e1.severity < e2.severity) := by
  refine ⟨?_, ?_, ?_⟩
  · intro parsed hok
    exact parseLegendAux_dget kvs key n v hck hn kvs [] parsed hok huniq (Or.inl hmem)
  · intro hints
    exact parseLegendAux_ok kvs kvs [] hints
  · intro parsed key2 n2 v2 hok hck2 hn2 hmem2 huniq2 hlt
    refine ⟨⟨n - 1, dget kvs (key ++ "_desc")⟩, ⟨n2 - 1, dget kvs (key2 ++ "_desc")⟩,
      parseLegendAux_dget kvs key n v hck hn kvs [] parsed hok huniq (Or.inl hmem),
      parseLegendAux_dget kvs key2 n2 v2 hck2 hn2 kvs [] parsed hok huniq2 (Or.inl hmem2),
      ?_⟩
    simp only
    omega

/-- The spec's own Legend example (§8). -/
def kvsC4 : List (String × JVal) :=
  [("id1", .str "0"), ("id1_desc", .str "keine Belastung"),
   ("id6", .str "2-3"), ("id6_desc", .str "mittlere bis hohe Belastung")]

/-- The parsed form of `kvsC4`. -/
def parsedC4 : List (JVal × LegendEntry) :=
  [(.str "0", ⟨0, some (.str "keine Belastung")⟩),
   (.str "2-3", ⟨5, some (.str "mittlere bis hohe Belastung")⟩)]

/-- Witness for C4 (amended) on the spec's example legend: `"2-3"` decodes
to severity `5` with its description, the parse succeeds, and severities
are ordered across `id1` and `id6`. -/
theorem C4_legend_decode_witness :
    parseLegend (.obj kvsC4) = .ok parsedC4 ∧
    dget parsedC4 (JVal.str "2-3") =
      some ⟨5, some (.str "mittlere bis hohe Belastung")⟩ ∧
    (∃ parsed, parseLegend (.obj kvsC4) = .ok parsed) ∧
    (∃ e1 e2, dget parsedC4 (JVal.str "0") = some e1 ∧
      dget parsedC4 (JVal.str "2-3") = some e2 ∧ e1.severity < e2.severity) := by
  refine ⟨by decide, ?_, ?_, ?_⟩
  · exact (C4_legend_decode kvsC4 "id6" 6 (.str "2-3")
      (by decide) (by decide) (by decide) (by decide)).1 parsedC4 (by decide)
  · exact (C4_legend_decode kvsC4 "id1" 1 (.str "0")
      (by decide) (by decide) (by decide) (by decide)).2.1 (by decide)
  · exact (C4_legend_decode kvsC4 "id1" 1 (.str "0")
      (by decide) (by decide) (by decide) (by decide)).2.2 parsedC4 "id6" 6
      (.str "2-3") (by decide) (by decide) (by decide) (by decide) (by decide)
      (by decide)

/-- A complete feed whose single content entry carries the severity code
`"9"`, which the legend (`{"id1": "0"}`) does not define. -/
def feedC5 : JVal :=
  .obj [("legend", .obj [("id1", .str "0")]),
        ("content", .arr [
          .obj [("region_name", .str "Bayern"), ("region_id", .num 120),
                ("partregion_name", .str "Mainfranken"), ("partregion_id", .num 124),
                ("Pollen", .obj [("Birke", .obj [("today", .str "9")])])]])]

/-- Claim C5 (code bug): a severity code present in a feed entry's `Pollen`
mapping but absent from the legend does NOT resolve to an entry with
absent severity/description — `_parse_pollendata` subscripts
`self.legend[value]` (line 90) and the whole parse raises `KeyError`. -/
theorem C5_unresolvable_code_raises_keyerror :
    dget legendTest (JVal.str "9") = none ∧
    parsePollendata legendTest (some (.obj [("Birke", .obj [("today", .str "9")])])) =
      .error (.keyErrorCode (.str "9")) ∧
    (parseData initState (some feedC5)).1 = some (.keyErrorCode (.str "9")) := by
  decide

/-- Claim C7 (code bug): a content entry lacking `region_name` is NOT
skipped: `_parse_data` (lines 56-71) registers it under the region name
`None`, so it contributes a region (key `None` in `_region2id` and a name
`None` in `_id2region`), a sub-region, and a pollen-data slot — and the
`regions` property afterwards raises `TypeError` when `sorted` compares
`None` with a string. -/
theorem C7_missing_region_name_not_skipped :
    (parseData initState (some feedC7)).1 = none ∧
    dget (parseData initState (some feedC7)).2.region2id none = some (some (.num 99)) ∧
    dget (parseData initState (some feedC7)).2.id2region (some (.num 99)) = some none ∧
    dget (parseData initState (some feedC7)).2.region_id2partregions (some (.num 99)) =
      some [PartEntry.mk (some (.num 991)) (some (.str "Ghost"))] ∧
    dget (parseData initState (some feedC7)).2.pollendata (some (.num 99)) =
      some [(some (.num 991), [])] ∧
    (parseData initState (some feedC7)).2.regionsE = .error .typeErrorUnorderable := by
  decide

/-- Claim C8 (code bug): `region_id` on an unknown region returns `None`
silently instead of failing (the second definition of `region_id` on
lines 135-136 shadows the raising one on lines 99-100), and
`partregion_id` fails with `StopIteration` (unknown sub-region, line 109)
or `KeyError` (unknown region), not with a not-found error. -/
theorem C8_region_id_lookup_failures :
    stTest.region_id "Atlantis" = none ∧
    stTest.partregion_idE "Bayern" "Atlantis" = .error .stopIteration ∧
    stTest.partregion_idE "Atlantis" "Mainfranken" = .error .keyErrorId := by
  decide

/-- Claim C6: `regions` returns the region names lexicographically sorted
(by code point, the CPython `sorted` order) regardless of feed order — it
is the insertion sort of the key names, which is both sorted and a
permutation of them; and after a content-loop run from an empty sub-region
index, `partregions` returns, for a region, exactly the sub-region names
of that region's entries in the order they appear in the feed's `content`
array. -/
theorem C6_regions_sorted_partregions_feed_order :
    (∀ (st : State) (names : List String),
      allStrKeys (dkeys st.region2id) = some names →
      ∃ regs, st.regionsE = .ok regs ∧
        regs = (List.insertionSort strLeP names).map (fun s => some (.str s)) ∧
        (List.insertionSort strLeP names).Sorted strLeP ∧
        (List.insertionSort strLeP names).Perm names) ∧
    (∀ (st st2 : State) (entries : List JVal) (region : String),
      parseContentLoop st entries = (none, st2) →
      st.region_id2partregions = [] →
      partsOfEntries (st2.region_id region) entries ≠ [] →
      st2.partregionsE region =
        .ok ((partsOfEntries (st2.region_id region) entries).map PartEntry.name)) := by
  constructor
  · intro st names hnames
    exact ⟨(List.insertionSort strLeP names).map (fun s => some (.str s)),
      regionsE_of_strings st names hnames, rfl,
      List.sorted_insertionSort strLeP names,
      List.perm_insertionSort strLeP names⟩
  · intro st st2 entries region hloop hempty hne
    have h := parseContentLoop_parts entries st st2 hloop (st2.region_id region)
    rw [if_neg hne, hempty] at h
    simp only [dget, Option.getD_none, List.nil_append] at h
    unfold State.partregionsE State.partsOf
    rw [h]

/-- State with two regions stored in non-lexicographic feed order. -/
def stC6 : State :=
  { initState with region2id :=
      [(some (.str "Schleswig-Holstein und Hamburg"), some (.num 10)),
       (some (.str "Bayern"), some (.num 120))] }

/-- Two content entries for the same region, in feed order. -/
def entriesC6 : List JVal :=
  [.obj [("region_name", .str "Bayern"), ("region_id", .num 120),
         ("partregion_name", .str "Mainfranken"), ("partregion_id", .num 124),
         ("Pollen", .obj [])],
   .obj [("region_name", .str "Bayern"), ("region_id", .num 120),
         ("partregion_name", .str "Donauniederungen"), ("partregion_id", .num 122),
         ("Pollen", .obj [])]]

/-- Witness for C6: the unsorted two-region state sorts, and the two-entry
content list yields `partregions` in feed order. -/
theorem C6_regions_sorted_partregions_feed_order_witness :
    (∃ regs, stC6.regionsE = .ok regs ∧
      regs = (List.insertionSort strLeP
          ["Schleswig-Holstein und Hamburg", "Bayern"]).map (fun s => some (.str s)) ∧
      (List.insertionSort strLeP
          ["Schleswig-Holstein und Hamburg", "Bayern"]).Sorted strLeP ∧
      (List.insertionSort strLeP
          ["Schleswig-Holstein und Hamburg", "Bayern"]).Perm
        ["Schleswig-Holstein und Hamburg", "Bayern"]) ∧
    ((parseContentLoop initState entriesC6).2.partregionsE "Bayern" =
      .ok ((partsOfEntries ((parseContentLoop initState entriesC6).2.region_id "Bayern")
        entriesC6).map PartEntry.name)) := by
  constructor
  · exact C6_regions_sorted_partregions_feed_order.1 stC6
      ["Schleswig-Holstein und Hamburg", "Bayern"] (by decide)
  · exact C6_regions_sorted_partregions_feed_order.2 initState
      (parseContentLoop initState entriesC6).2 entriesC6 "Bayern"
      (by rfl) (by rfl) (by decide)

/-- Claim C9: when parsing raw feed text fails because the JSON is
malformed (`json.loads` raises before anything is assigned) or because the
top-level value is not an object (the `isinstance` check on line 47 raises
`TypeError` before anything is assigned), the previously parsed state —
legend, region index, sub-region lists, pollen tables, and every other
attribute — is returned entirely unchanged. -/
theorem C9_parse_failure_keeps_state (st : State) (raw : Option JVal) :
    (raw = none → parseData st raw = (some .jsonDecodeError, st)) ∧
    (∀ j, raw = some j → (∀ kvs, j ≠ .obj kvs) →
      parseData st raw = (some .typeErrorTopDict, st)) := by
  constructor
  · intro h
    subst h
    rfl
  · intro j h hno
    subst h
    cases j with
    | obj kvs => exact absurd rfl (hno kvs)
    | null => rfl
    | bool b => rfl
    | str s => rfl
    | num n => rfl
    | arr xs => rfl

/-- Witness for C9 on the concrete snapshot: malformed JSON and an
array top level both leave the snapshot untouched. -/
theorem C9_parse_failure_keeps_state_witness :
    parseData stTest none = (some .jsonDecodeError, stTest) ∧
    parseData stTest (some (.arr [])) = (some .typeErrorTopDict, stTest) := by
  constructor
  · exact (C9_parse_failure_keeps_state stTest none).1 rfl
  · exact (C9_parse_failure_keeps_state stTest (some (.arr []))).2 (.arr []) rfl
      (fun kvs h => nomatch h)

/-- Claim C10: for a known region and sub-region and a resolved day-slot
index inside `[0, 3)`, if the parsed pollen table for that sub-region has
no entry under the resolved day key (no pollen type carried a value for
that day), `pollen` returns `None` — `.get(day_key)` on line 132 — rather
than an empty mapping or an error. -/
theorem C10_no_day_data_returns_none (st : State) (now days_ahead : Int)
    (region partregion : String) (ts : Timestamp)
    (regs parts : List (Option JVal)) (pid : Option JVal) (tbl : List (Option JVal × PollenTable))
    (days : PollenTable)
    (hreg : st.regionsE = .ok regs) (hr : some (.str region) ∈ regs)
    (hparts : st.partregionsE region = .ok parts)
    (hp : some (.str partregion) ∈ parts)
    (hlu : st.last_update = some ts)
    (h0 : 0 ≤ now + days_ahead - ts.date)
    (h3 : now + days_ahead - ts.date < 3)
    (hpid : st.partregion_idE region partregion = .ok pid)
    (htbl : dget st.pollendata (st.region_id region) = some tbl)
    (hdays : dget tbl pid = some days)
    (hnone : dget days (DAY_KEYS.getD (now + days_ahead - ts.date).toNat "") = none) :
    st.pollen now region partregion days_ahead = .ok none := by
  rw [pollen_in_window st now days_ahead region partregion ts regs parts
    hreg hr hparts hp hlu h0 h3]
  unfold State.pollenLookup
  simp only [hpid, htbl, hdays, hnone]

/-- Witness for C10: on the concrete snapshot, `days_ahead = 1` resolves to
`"tomorrow"`, which has no entry in the stored pollen table, and the call
returns `None`. -/
theorem C10_no_day_data_returns_none_witness :
    stTest.pollen dTest "Bayern" "Mainfranken" 1 = .ok none :=
  C10_no_day_data_returns_none stTest dTest 1 "Bayern" "Mainfranken" tsTest
    [some (.str "Bayern")] [some (.str "Mainfranken")] (some (.num 124))
    [(some (.num 124), ptableTest)] ptableTest
    (by decide) (by decide) (by decide) (by decide) (by decide) (by decide)
    (by decide) (by decide) (by decide) (by decide) (by decide)
